import Mathlib

/-!
Shallow embedding of the dusky control-center core, taken from
`src/user_scripts/dusky_system/rework_janlu/lib/utility.py` (settings store)
and `src/user_scripts/dusky_system/control_center/lib/rows.py`
(widget lifecycle, polling mixins, toggle/label/slider rows, thread pool).

Python machine-level conventions used throughout the embedding:
- Python `str` values become Lean `String`; Python `float` slider arithmetic
  is embedded over exact rationals `ℚ` (the source performs plain field
  arithmetic with no bit-level tricks).
- a Python function that can raise an exception that its caller does not
  catch is embedded as `Except String _`;
- state mutated under `threading.Lock` regions is embedded as explicit
  state passing, one Lean function per lock-protected region, so that any
  interleaving of regions is a sequence of applications of these functions.
-/

namespace Dusky

/-! ## Settings store (`rework_janlu/lib/utility.py`) -/

/-- Values handled by the settings store.  The source dispatches on the
dynamic type of the caller-supplied default (`bool` / `int` / `float` /
`str`); the embedding models the `bool`, `int` and `str` universe that the
claims exercise.  (IEEE `float` parsing/printing is not modelled.) -/
inductive SettingValue where
  | b (x : Bool)
  | i (x : Int)
  | s (x : String)
deriving DecidableEq, Repr

/-- Python whitespace characters stripped by `str.strip()` (ASCII subset). -/
def py_space (c : Char) : Bool :=
  c = ' ' || c = '\t' || c = '\n' || c = '\x0d' || c = '\x0b' || c = '\x0c'

/-- Embedding of Python `str.strip()`: drop leading and trailing whitespace. -/
def pyStrip (s : String) : String :=
  ⟨((s.data.dropWhile py_space).reverse.dropWhile py_space).reverse⟩

/-- Embedding of Python `str.lower()` (ASCII case folding). -/
def pyLower (s : String) : String :=
  ⟨s.data.map Char.toLower⟩

/-- Numeric value of a decimal digit character. -/
def py_digit_val (c : Char) : Nat := c.toNat - 48

/-- Digit-run accumulator for Python `int()` parsing: a single underscore is
permitted between two digits, anything else ends in failure. -/
def py_digits_core : Nat → List Char → Option Nat
  | acc, [] => some acc
  | _, ['_'] => none
  | acc, '_' :: c :: rest =>
      if c.isDigit then py_digits_core (10 * acc + py_digit_val c) rest else none
  | acc, c :: rest =>
      if c.isDigit then py_digits_core (10 * acc + py_digit_val c) rest else none

/-- Parse a nonempty run of decimal digits, first character must be a digit. -/
def py_parse_digits : List Char → Option Nat
  | [] => none
  | c :: rest =>
      if c.isDigit then py_digits_core (py_digit_val c) rest else none

/-- Embedding of Python `int(str)` in base 10 on an already-stripped string:
optional sign followed by digits (with underscores between digits);
`none` models the `ValueError` raised on any other input.  In
`load_setting` the argument has already been passed through `.strip()`,
so the extra whitespace tolerance of `int()` never comes into play. -/
def pyParseInt (s : String) : Option Int :=
  match s.data with
  | [] => none
  | c :: rest =>
      if c = '+' then (py_parse_digits rest).map (fun n => (n : Int))
      else if c = '-' then (py_parse_digits rest).map (fun n => -(n : Int))
      else (py_parse_digits (c :: rest)).map (fun n => (n : Int))

/-- Python `str(value)` rendering for the modelled value universe:
`str(True) = "True"`, `str(False) = "False"`, integers print their decimal
digits, strings are written through unchanged. -/
def SettingValue.py_str : SettingValue → String
  | .b true => "True"
  | .b false => "False"
  | .i n => toString n
  | .s str => str

/-- File contents written by `save_setting(key, value, as_int)`:
`str(int(value))` when `as_int` is set and the value is a boolean,
otherwise `str(value)`. -/
def save_contents (value : SettingValue) (as_int : Bool) : String :=
  match value, as_int with
  | .b x, true => if x then "1" else "0"
  | v, _ => v.py_str

/-- Embedding of `load_setting(key, default, is_inversed)`.  The file system
is abstracted to the optional contents of the key's file; a missing file
returns the default untouched.  With a boolean default the stripped
contents are first tried as `int` (any nonzero integer is truthy),
falling back to a case-insensitive comparison with `"true"`, and the
result is xor-ed with the inversion flag.  With an `int` default the
source calls `int(value)` outside any `except ValueError`, so a
non-numeric file raises (modelled as `Except.error`). -/
def load_setting (contents : Option String) (default : SettingValue)
    (is_inversed : Bool) : Except String SettingValue :=
  match contents with
  | none => .ok default
  | some raw =>
    let value := pyStrip raw
    match default with
    | .b _ =>
      match pyParseInt value with
      | some n => .ok (.b (Bool.xor (n != 0) is_inversed))
      | none => .ok (.b (Bool.xor (pyLower value == "true") is_inversed))
    | .i _ =>
      match pyParseInt value with
      | some n => .ok (.i n)
      | none => .error "ValueError"
    | .s _ => .ok (.s value)

/-! ## Widget lifecycle state (`control_center/lib/rows.py`, `WidgetState`) -/

/-- Embedding of the `WidgetState` dataclass: the per-widget guarded record.
The `threading.Lock` field is not data; each lock-protected region of the
source becomes one Lean function on this structure. -/
structure WidgetState where
  is_destroyed : Bool
  icon_source_id : Nat
  monitor_source_id : Nat
  update_source_id : Nat
  debounce_source_id : Nat
  is_icon_updating : Bool
  is_monitoring : Bool
  is_value_updating : Bool
deriving DecidableEq, Repr

/-- Freshly constructed `WidgetState()`: nothing destroyed, no timers armed,
no fetch in flight. -/
def WidgetState.init : WidgetState :=
  ⟨false, 0, 0, 0, 0, false, false, false⟩

/-- Embedding of `WidgetState.mark_destroyed_and_get_sources`: in one
lock-protected step, set `is_destroyed`, read all four source IDs, zero
them in the record, and return the read values. -/
def WidgetState.mark_destroyed_and_get_sources (s : WidgetState) :
    WidgetState × (Nat × Nat × Nat × Nat) :=
  ({ s with
      is_destroyed := true
      icon_source_id := 0
      monitor_source_id := 0
      update_source_id := 0
      debounce_source_id := 0 },
   (s.icon_source_id, s.monitor_source_id, s.update_source_id,
    s.debounce_source_id))

/-- Every lock-protected region in `rows.py` that writes `WidgetState`.
Parameters carry the data decided outside the lock: the fresh source ID
returned by `GLib.timeout_add*` for the arming regions. -/
inductive WidgetOp where
  /-- the drain step of `_perform_cleanup` / `do_unroot` -/
  | markDestroy
  /-- arming region of `_start_icon_update_loop` -/
  | armIcon (fresh_id : Nat)
  /-- guard region of `_icon_update_tick` (sets `is_icon_updating`) -/
  | iconTickGuard
  /-- flag clear when `_schedule_icon_fetch` fails to submit,
      and the `finally` block of `_fetch_icon_async` -/
  | clearIconUpdating
  /-- arming region of `_start_state_monitor` -/
  | armMonitor (fresh_id : Nat)
  /-- guard region of `_monitor_state_tick` (sets `is_monitoring`) -/
  | monitorTickGuard
  /-- flag clear on failed submit in `_monitor_state_tick`,
      and the `finally` block of `_check_state_async` -/
  | clearMonitoring
  /-- arming region of `LabelRow.__init__` (`update_source_id`) -/
  | armUpdate (fresh_id : Nat)
  /-- guard region of `LabelRow._trigger_update` (sets `is_value_updating`) -/
  | triggerUpdateGuard
  /-- flag clear on failed submit in `_trigger_update`,
      and the `finally` block of `_load_value_async` -/
  | clearValueUpdating
  /-- debounce re-arming region of `SliderRow._on_value_changed` -/
  | armDebounce (fresh_id : Nat)
  /-- entry region of `SliderRow._execute_debounced_action`
      (zeroes `debounce_source_id`) -/
  | debounceFire
deriving DecidableEq, Repr

/-- State transition of each lock-protected region, transcribed from the
source: every arming region and every flag-raising region first tests
`is_destroyed` (and the raising regions also test the flag itself) and
leaves the record unchanged when the test fails. -/
def WidgetState.applyOp (s : WidgetState) : WidgetOp → WidgetState
  | .markDestroy => s.mark_destroyed_and_get_sources.1
  | .armIcon fid =>
      if s.is_destroyed then s else { s with icon_source_id := fid }
  | .iconTickGuard =>
      if s.is_destroyed then s
      else if s.is_icon_updating then s
      else { s with is_icon_updating := true }
  | .clearIconUpdating => { s with is_icon_updating := false }
  | .armMonitor fid =>
      if s.is_destroyed then s else { s with monitor_source_id := fid }
  | .monitorTickGuard =>
      if s.is_destroyed then s
      else if s.is_monitoring then s
      else { s with is_monitoring := true }
  | .clearMonitoring => { s with is_monitoring := false }
  | .armUpdate fid =>
      if s.is_destroyed then s else { s with update_source_id := fid }
  | .triggerUpdateGuard =>
      if s.is_value_updating || s.is_destroyed then s
      else { s with is_value_updating := true }
  | .clearValueUpdating => { s with is_value_updating := false }
  | .armDebounce fid =>
      if s.is_destroyed then s else { s with debounce_source_id := fid }
  | .debounceFire =>
      if s.is_destroyed then s else { s with debounce_source_id := 0 }

/-! ## UI-application callbacks (main-thread `GLib.idle_add` targets) -/

/-- Embedding of `DynamicIconMixin._apply_icon_update`: under the lock,
bail out when destroyed; otherwise set the icon name only when it
differs from the currently displayed one.  Returns the icon view
(the displayed icon name). -/
def apply_icon_update (s : WidgetState) (current new_icon : String) : String :=
  if s.is_destroyed then current
  else if current ≠ new_icon then new_icon
  else current

/-- Visible state of a `LabelRow` suffix label: its text and whether the
`dim-label` CSS class is still present. -/
structure LabelView where
  label : String
  dim : Bool
deriving DecidableEq, Repr

/-- Embedding of `LabelRow._update_label`: bail out when destroyed;
otherwise set the text and drop the `dim-label` class only when the text
differs. -/
def update_label (s : WidgetState) (v : LabelView) (text : String) : LabelView :=
  if s.is_destroyed then v
  else if v.label ≠ text then { label := text, dim := false }
  else v

/-! ## ToggleRow (`rows.py`, `ToggleRow`) -/

/-- Embedding of a `ToggleRow`: the lifecycle record, the switch state, the
`threading.Event` used to flag programmatic updates, the configuration
that `_on_toggle_changed` consults, and logs of the observable effects
(commands handed to `utility.execute_command` and writes handed to
`utility.save_setting` as `(key, value, as_int)` triples). -/
structure ToggleRow where
  state : WidgetState
  switch_active : Bool
  programmatic : Bool
  key : Option String
  key_inverse : Bool
  save_as_int : Bool
  action_enabled : Option String
  action_disabled : Option String
  executed : List String
  saved : List (String × Bool × Bool)
deriving DecidableEq, Repr

/-- Embedding of `ToggleRow._on_toggle_changed`: when the programmatic
event flag is set the handler returns at once; otherwise it executes the
`enabled`/`disabled` action command (when configured) and persists the
(possibly inverted) state under the configured key. -/
def ToggleRow.on_toggle_changed (r : ToggleRow) (state : Bool) : ToggleRow :=
  if r.programmatic then r
  else
    let r1 :=
      match (if state then r.action_enabled else r.action_disabled) with
      | some cmd => { r with executed := r.executed ++ [cmd] }
      | none => r
    match r1.key with
    | some k =>
        { r1 with
            saved := r1.saved ++ [(k, Bool.xor state r1.key_inverse, r1.save_as_int)] }
    | none => r1

/-- Embedding of `ToggleRow._apply_state_update`: bail out when destroyed;
when the monitored state differs from the switch, set the programmatic
event, flip the switch — which synchronously emits `state-set`, running
`_on_toggle_changed` with the event still set — and clear the event. -/
def ToggleRow.apply_state_update (r : ToggleRow) (new_state : Bool) : ToggleRow :=
  if r.state.is_destroyed then r
  else if new_state != r.switch_active then
    let r1 := { r with programmatic := true, switch_active := new_state }
    let r2 := r1.on_toggle_changed new_state
    { r2 with programmatic := false }
  else r

/-! ## Background task pool (`rows.py`, `_ExecutorManager`) -/

/-- Embedding of a `concurrent.futures.ThreadPoolExecutor` as far as the
claims need it: whether `shutdown()` has been called on it. -/
structure PyExecutor where
  is_shut : Bool
deriving DecidableEq, Repr

/-- Embedding of the `_ExecutorManager` singleton state. -/
structure ExecutorManager where
  executor : Option PyExecutor
  is_shutdown : Bool
deriving DecidableEq, Repr

/-- Embedding of `_ExecutorManager.get`: lazily (re)create the pool when
absent or after a shutdown, clearing the shutdown flag. -/
def ExecutorManager.get (m : ExecutorManager) : ExecutorManager × PyExecutor :=
  if m.executor.isNone || m.is_shutdown then
    ({ executor := some ⟨false⟩, is_shutdown := false }, ⟨false⟩)
  else
    (m, m.executor.getD ⟨false⟩)

/-- Embedding of `_ExecutorManager.shutdown`: mark shut down and drop the
executor (its own `shutdown(wait=False, cancel_futures=True)` is called). -/
def ExecutorManager.shutdown_pool (m : ExecutorManager) : ExecutorManager :=
  if m.executor.isSome && !m.is_shutdown then
    { executor := none, is_shutdown := true }
  else m

/-- Whether `ThreadPoolExecutor.submit` raises `RuntimeError`: it does when
the executor has been shut down, or when the worker thread cannot be
started because the interpreter is exiting (the situation in which the
manager's `atexit`-registered shutdown has run). -/
def PyExecutor.submit_raises (e : PyExecutor) (interpreter_exiting : Bool) : Bool :=
  e.is_shut || interpreter_exiting

/-- Embedding of `_submit_task_safe`: fetch the singleton executor, submit,
and convert a `RuntimeError` from `submit` into the return value `false`
instead of letting it propagate.  Returns the updated manager state and
whether the task was accepted. -/
def submit_task_safe (m : ExecutorManager) (interpreter_exiting : Bool) :
    ExecutorManager × Bool :=
  let p := m.get
  if (p.2).submit_raises interpreter_exiting then (p.1, false)
  else (p.1, true)

/-! ## SliderRow (`rows.py`, `SliderRow`) -/

/-- Constant `MIN_STEP_VALUE = 1e-9` from `rows.py`, as an exact rational. -/
def min_step_value : ℚ := 1 / 1000000000

/-- Embedding of Python's built-in `round` to an integer: round half to
even (banker's rounding), as used by `_on_value_changed`. -/
def pyRound (q : ℚ) : ℤ :=
  if q - ⌊q⌋ < 1 / 2 then ⌊q⌋
  else if 1 / 2 < q - ⌊q⌋ then ⌊q⌋ + 1
  else if ⌊q⌋ % 2 = 0 then ⌊q⌋ else ⌊q⌋ + 1

/-- Embedding of Python `int(float)`: truncation toward zero. -/
def py_int (q : ℚ) : ℤ :=
  if 0 ≤ q then ⌊q⌋ else ⌈q⌉

/-- The two quantization lines of `_on_value_changed`:
`snapped = round(val / step) * step` then
`snapped = max(min_val, min(snapped, max_val))`. -/
def quantize (min_v max_v step v : ℚ) : ℚ :=
  max min_v (min ((pyRound (v / step) : ℚ) * step) max_v)

/-- Embedding of a `SliderRow`: lifecycle record, slider configuration,
the `_slider_lock`-protected fields (`_slider_changing`, `_last_snapped`,
`_pending_value`), the slider position, the configured exec command
(present when `on_change` is an exec action with a command), and the log
of command lines actually executed by `_execute_debounced_action`. -/
structure SliderRow where
  state : WidgetState
  min_val : ℚ
  max_val : ℚ
  step_val : ℚ
  debounce_enabled : Bool
  slider_changing : Bool
  last_snapped : Option ℚ
  pending_value : Option ℚ
  position : ℚ
  command : Option String
  executed : List String
deriving DecidableEq, Repr

/-- Embedding of `SliderRow.__init__` for the fields the claims touch:
the step falls back to `1.0` unless strictly above `MIN_STEP_VALUE`, the
guard fields start clear, and nothing has been executed. -/
def mk_slider_row (min_v max_v step : ℚ) (debounce : Bool)
    (cmd : Option String) (default_v : ℚ) : SliderRow :=
  { state := WidgetState.init
    min_val := min_v
    max_val := max_v
    step_val := if min_step_value < step then step else 1
    debounce_enabled := debounce
    slider_changing := false
    last_snapped := none
    pending_value := none
    position := default_v
    command := cmd
    executed := [] }

/-- Embedding of `SliderRow._execute_debounced_action`: bail out when
destroyed; otherwise zero the debounce source, consume the pending value,
and — when a value was pending and an exec command is configured —
execute the command with `{value}` replaced by `str(int(value))`. -/
def SliderRow.execute_debounced_action (r : SliderRow) : SliderRow :=
  if r.state.is_destroyed then r
  else
    let r1 := { r with state := { r.state with debounce_source_id := 0 } }
    let value := r1.pending_value
    let r2 := { r1 with pending_value := none }
    match value with
    | none => r2
    | some v =>
      match r2.command with
      | none => r2
      | some cmd =>
          { r2 with
              executed :=
                r2.executed ++ [cmd.replace "{value}" (toString (py_int v))] }

/-- Embedding of one raw `value-changed` event: the slider has moved to
`v` and `SliderRow._on_value_changed` runs.  A re-entrant invocation
(from the programmatic snap `set_value`) sees `_slider_changing` set and
returns at once; otherwise the handler quantizes, skips the event when
the quantized value is within `MIN_STEP_VALUE` of the last one, snaps the
control when the raw value is off-grid, records the pending value, and
either executes immediately (debounce disabled) or re-arms the debounce
timer with the fresh source `fid` (old source removed afterwards). -/
def SliderRow.on_value_changed (r0 : SliderRow) (v : ℚ) (fid : Nat) : SliderRow :=
  let r := { r0 with position := v }
  if r.slider_changing then r
  else
    let snapped := quantize r.min_val r.max_val r.step_val v
    if (match r.last_snapped with
        | some l => decide (|snapped - l| < min_step_value)
        | none => false) then r
    else
      let r1 := { r with last_snapped := some snapped }
      let r2 :=
        if min_step_value < |snapped - v| then { r1 with position := snapped }
        else r1
      let r3 := { r2 with pending_value := some snapped }
      if r3.debounce_enabled = false then r3.execute_debounced_action
      else if r3.state.is_destroyed then r3
      else { r3 with state := { r3.state with debounce_source_id := fid } }

/-- Fold a burst of raw value-changed events (value, fresh timer source)
through the handler. -/
def process_events (r : SliderRow) (evs : List (ℚ × Nat)) : SliderRow :=
  evs.foldl (fun acc e => acc.on_value_changed e.1 e.2) r

/-- The hypothesis of the debounce claim: successive quantized values of
the burst differ by at least `MIN_STEP_VALUE` (the source's notion of
"the quantized values differ"), relative to the `_last_snapped` value in
force when the burst begins. -/
def accept_chain (min_v max_v step : ℚ) : Option ℚ → List ℚ → Prop
  | _, [] => True
  | none, v :: rest =>
      accept_chain min_v max_v step (some (quantize min_v max_v step v)) rest
  | some l, v :: rest =>
      min_step_value ≤ |quantize min_v max_v step v - l| ∧
      accept_chain min_v max_v step (some (quantize min_v max_v step v)) rest

/-! ## Helper lemmas -/

theorem pyRound_bounds (q : ℚ) : ⌊q⌋ ≤ pyRound q ∧ pyRound q ≤ ⌊q⌋ + 1 := by
  unfold pyRound
  split_ifs <;> omega

theorem pyRound_intCast (n : ℤ) : pyRound (n : ℚ) = n := by
  unfold pyRound
  norm_num

theorem pyRound_mono {a b : ℚ} (hab : a ≤ b) : pyRound a ≤ pyRound b := by
  rcases lt_or_eq_of_le (Int.floor_mono hab) with hlt | heq
  · calc pyRound a ≤ ⌊a⌋ + 1 := (pyRound_bounds a).2
      _ ≤ ⌊b⌋ := hlt
      _ ≤ pyRound b := (pyRound_bounds b).1
  · unfold pyRound
    rw [← heq]
    split_ifs <;> first | omega | linarith

theorem toLower_of_isDigit (c : Char) (h : c.isDigit = true) :
    c.toLower = c := by
  simp [Char.isDigit, UInt32.le_def, BitVec.le_def] at h
  simp only [Char.toLower]
  rw [if_neg]
  rintro ⟨h1, _⟩
  have h2 : c.toNat ≤ 57 := h.2
  omega

theorem parse_none_of_lower_true (v : String) (h : pyLower v = "true") :
    pyParseInt v = none := by
  have hdata : v.data.map Char.toLower = ('t' :: 'r' :: 'u' :: 'e' :: []) := by
    have h2 := congrArg String.data h
    simpa [pyLower] using h2
  cases hv : v.data with
  | nil => rw [hv] at hdata; simp at hdata
  | cons c0 rest =>
    rw [hv] at hdata
    simp only [List.map_cons, List.cons.injEq] at hdata
    obtain ⟨hc0, -⟩ := hdata
    have hplus : c0 ≠ '+' := by rintro rfl; revert hc0; decide
    have hminus : c0 ≠ '-' := by rintro rfl; revert hc0; decide
    have hdig : c0.isDigit = false := by
      by_contra hd
      have hd' : c0.isDigit = true := by simpa using hd
      have heq := toLower_of_isDigit c0 hd'
      rw [heq] at hc0
      subst hc0
      exact absurd hd' (by decide)
    simp only [pyParseInt, hv]
    rw [if_neg hplus, if_neg hminus]
    simp [py_parse_digits, hdig]

/-! ## Claim theorems -/

/-- C3: `mark_destroyed_and_get_sources` in one lock-protected step sets the
destroyed flag, returns every currently-armed timer handle, and zeroes
the handles in the record; calling it again on the result returns only
zero (unarmed) source IDs, so the drain is idempotent in effect. -/
theorem c3_drain_atomic_and_idempotent (s : WidgetState) :
    s.mark_destroyed_and_get_sources.1.is_destroyed = true ∧
    s.mark_destroyed_and_get_sources.2 =
      (s.icon_source_id, s.monitor_source_id, s.update_source_id,
        s.debounce_source_id) ∧
    s.mark_destroyed_and_get_sources.1.icon_source_id = 0 ∧
    s.mark_destroyed_and_get_sources.1.monitor_source_id = 0 ∧
    s.mark_destroyed_and_get_sources.1.update_source_id = 0 ∧
    s.mark_destroyed_and_get_sources.1.debounce_source_id = 0 ∧
    s.mark_destroyed_and_get_sources.1.mark_destroyed_and_get_sources.2 =
      (0, 0, 0, 0) := by
  simp [WidgetState.mark_destroyed_and_get_sources]

/-- C2: once the destroyed flag is set, every lock-protected region of the
source preserves it (monotonicity), never arms a timer source to a new
nonzero handle, and never raises an in-flight flag that was down. -/
theorem c2_destroyed_is_absorbing (op : WidgetOp) (s : WidgetState)
    (h : s.is_destroyed = true) :
    (s.applyOp op).is_destroyed = true ∧
    ((s.applyOp op).icon_source_id = s.icon_source_id ∨
      (s.applyOp op).icon_source_id = 0) ∧
    ((s.applyOp op).monitor_source_id = s.monitor_source_id ∨
      (s.applyOp op).monitor_source_id = 0) ∧
    ((s.applyOp op).update_source_id = s.update_source_id ∨
      (s.applyOp op).update_source_id = 0) ∧
    ((s.applyOp op).debounce_source_id = s.debounce_source_id ∨
      (s.applyOp op).debounce_source_id = 0) ∧
    ((s.applyOp op).is_icon_updating = true → s.is_icon_updating = true) ∧
    ((s.applyOp op).is_monitoring = true → s.is_monitoring = true) ∧
    ((s.applyOp op).is_value_updating = true → s.is_value_updating = true) := by
  cases op <;>
    simp [WidgetState.applyOp, WidgetState.mark_destroyed_and_get_sources, h]

/-- C2 witness: the invariant applied to a destroyed state with an icon
fetch still marked in flight, under the flag-clearing region. -/
theorem c2_destroyed_is_absorbing_witness :
    ((⟨true, 0, 0, 0, 0, true, false, false⟩ :
        WidgetState).applyOp .clearIconUpdating).is_destroyed = true ∧
    (((⟨true, 0, 0, 0, 0, true, false, false⟩ :
        WidgetState).applyOp .clearIconUpdating).icon_source_id = 0 ∨
      ((⟨true, 0, 0, 0, 0, true, false, false⟩ :
        WidgetState).applyOp .clearIconUpdating).icon_source_id = 0) ∧
    (((⟨true, 0, 0, 0, 0, true, false, false⟩ :
        WidgetState).applyOp .clearIconUpdating).monitor_source_id = 0 ∨
      ((⟨true, 0, 0, 0, 0, true, false, false⟩ :
        WidgetState).applyOp .clearIconUpdating).monitor_source_id = 0) ∧
    (((⟨true, 0, 0, 0, 0, true, false, false⟩ :
        WidgetState).applyOp .clearIconUpdating).update_source_id = 0 ∨
      ((⟨true, 0, 0, 0, 0, true, false, false⟩ :
        WidgetState).applyOp .clearIconUpdating).update_source_id = 0) ∧
    (((⟨true, 0, 0, 0, 0, true, false, false⟩ :
        WidgetState).applyOp .clearIconUpdating).debounce_source_id = 0 ∨
      ((⟨true, 0, 0, 0, 0, true, false, false⟩ :
        WidgetState).applyOp .clearIconUpdating).debounce_source_id = 0) ∧
    (((⟨true, 0, 0, 0, 0, true, false, false⟩ :
        WidgetState).applyOp .clearIconUpdating).is_icon_updating = true →
      true = true) ∧
    (((⟨true, 0, 0, 0, 0, true, false, false⟩ :
        WidgetState).applyOp .clearIconUpdating).is_monitoring = true →
      false = true) ∧
    (((⟨true, 0, 0, 0, 0, true, false, false⟩ :
        WidgetState).applyOp .clearIconUpdating).is_value_updating = true →
      false = true) :=
  c2_destroyed_is_absorbing .clearIconUpdating
    ⟨true, 0, 0, 0, 0, true, false, false⟩ rfl

/-- C1: after the drain operation has run, every UI-application callback
(the icon apply, the toggle state apply, the label update) observes the
destroyed flag and leaves the widget's visible state untouched. -/
theorem c1_drain_blocks_ui_application (s : WidgetState)
    (cur new_icon : String) (r : ToggleRow) (b : Bool) (v : LabelView)
    (text : String) :
    apply_icon_update s.mark_destroyed_and_get_sources.1 cur new_icon = cur ∧
    ToggleRow.apply_state_update
        { r with state := r.state.mark_destroyed_and_get_sources.1 } b =
      { r with state := r.state.mark_destroyed_and_get_sources.1 } ∧
    update_label s.mark_destroyed_and_get_sources.1 v text = v := by
  refine ⟨?_, ?_, ?_⟩ <;>
    simp [apply_icon_update, update_label, ToggleRow.apply_state_update,
      WidgetState.mark_destroyed_and_get_sources]

/-- C4: a monitored (programmatic) state application to a toggle never
executes the bound action command and never persists the settings key —
the change handler sees the programmatic-update event and returns —
while a direct user toggle with the event clear both executes the
configured `enabled` action and persists the (possibly inverted) state. -/
theorem c4_monitor_tick_never_fires_action (r : ToggleRow) (b : Bool)
    (c k : String) (hp : r.programmatic = false)
    (he : r.action_enabled = some c) (hk : r.key = some k) :
    ((r.apply_state_update b).executed = r.executed ∧
      (r.apply_state_update b).saved = r.saved ∧
      (r.apply_state_update b).switch_active =
        (if r.state.is_destroyed then r.switch_active else b)) ∧
    ((r.on_toggle_changed true).executed = r.executed ++ [c] ∧
      (r.on_toggle_changed true).saved =
        r.saved ++ [(k, Bool.xor true r.key_inverse, r.save_as_int)]) := by
  constructor
  · unfold ToggleRow.apply_state_update
    by_cases hd : r.state.is_destroyed
    · simp [hd]
    · simp only [hd, Bool.false_eq_true, if_false, if_neg]
      by_cases hb : b != r.switch_active
      · simp [hb, ToggleRow.on_toggle_changed]
      · simp only [hb, if_false]
        simp only [bne_iff_ne, ne_eq, not_not] at hb
        simp [hb]
  · unfold ToggleRow.on_toggle_changed
    simp [hp, he, hk]

/-- C4 witness: a fully-configured live toggle row, monitored update to
`true` and a user toggle to `true`. -/
theorem c4_monitor_tick_never_fires_action_witness :
    (((⟨WidgetState.init, false, false, some "k", false, false,
          some "cmd-on", some "cmd-off", [], []⟩ :
        ToggleRow).apply_state_update true).executed = [] ∧
      ((⟨WidgetState.init, false, false, some "k", false, false,
          some "cmd-on", some "cmd-off", [], []⟩ :
        ToggleRow).apply_state_update true).saved = [] ∧
      ((⟨WidgetState.init, false, false, some "k", false, false,
          some "cmd-on", some "cmd-off", [], []⟩ :
        ToggleRow).apply_state_update true).switch_active =
        (if (WidgetState.init).is_destroyed then false else true)) ∧
    (((⟨WidgetState.init, false, false, some "k", false, false,
          some "cmd-on", some "cmd-off", [], []⟩ :
        ToggleRow).on_toggle_changed true).executed = [] ++ ["cmd-on"] ∧
      ((⟨WidgetState.init, false, false, some "k", false, false,
          some "cmd-on", some "cmd-off", [], []⟩ :
        ToggleRow).on_toggle_changed true).saved =
        [] ++ [("k", Bool.xor true false, false)]) :=
  c4_monitor_tick_never_fires_action
    ⟨WidgetState.init, false, false, some "k", false, false,
      some "cmd-on", some "cmd-off", [], []⟩ true "cmd-on" "k" rfl rfl rfl

/-- C5: with the pool manager shut down (which the source ties to
interpreter exit via `atexit`), `_submit_task_safe` returns `false`: the
underlying `submit` raises `RuntimeError` in that situation and the
wrapper converts the exception into a `false` return value. -/
theorem c5_submit_after_shutdown_returns_false (m : ExecutorManager)
    (e : PyExecutor) :
    (submit_task_safe m.shutdown_pool true).2 = false ∧
    e.submit_raises true = true := by
  constructor
  · simp [submit_task_safe, ExecutorManager.get, ExecutorManager.shutdown_pool,
      PyExecutor.submit_raises]
  · simp [PyExecutor.submit_raises]

/-- C8: saving boolean `true` with `as_int` then loading with a boolean
default `False` returns `true`; saving a boolean without `as_int` and
loading with the inversion flag set returns the logical negation of the
saved value. -/
theorem c8_settings_round_trip :
    load_setting (some (save_contents (.b true) true)) (.b false) false =
      .ok (.b true) ∧
    ∀ b0 : Bool,
      load_setting (some (save_contents (.b b0) false)) (.b false) true =
        .ok (.b (!b0)) := by
  constructor
  · rfl
  · intro b0; cases b0 <;> rfl

/-- C9 counterexample: saving boolean `true` without `as_int` writes the
Python rendering `"True"`, not the claimed lowercase `"true"`. -/
theorem c9_lowercase_rendering_counterexample :
    save_contents (.b true) false = "True" ∧
    save_contents (.b true) false ≠ "true" := by
  refine ⟨rfl, ?_⟩
  decide

/-- C9 amended: the file contents are Python's `str` rendering of the
value — `"True"`/`"False"` (title-case) for booleans saved without
`as_int`, the decimal digits for an integer, and the raw string for a
string. -/
theorem c9_plain_text_rendering (x : Bool) (n : Int) (str : String) :
    save_contents (.b x) false = (if x then "True" else "False") ∧
    save_contents (.i n) false = toString n ∧
    save_contents (.s str) false = str := by
  refine ⟨?_, rfl, rfl⟩
  cases x <;> rfl

/-- C7: the slider quantization of `_on_value_changed` — round to the
nearest step multiple, then clamp to the configured range — is
idempotent for every value inside the range and positive step. -/
theorem c7_quantize_idempotent (m M s v : ℚ) (hs : 0 < s) (h1 : m ≤ v)
    (h2 : v ≤ M) :
    quantize m M s (quantize m M s v) = quantize m M s v := by
  have hs0 : s ≠ 0 := ne_of_gt hs
  have hmM : m ≤ M := le_trans h1 h2
  set n := pyRound (v / s) with hn
  have hq0 : quantize m M s v = max m (min ((n : ℚ) * s) M) := rfl
  rcases le_or_lt ((n : ℚ) * s) M with hM | hM
  · rcases le_or_lt m ((n : ℚ) * s) with hm | hm
    · have hv : quantize m M s v = (n : ℚ) * s := by
        rw [hq0, min_eq_left hM, max_eq_right hm]
      rw [hv]
      unfold quantize
      rw [mul_div_cancel_right₀ _ hs0, pyRound_intCast, min_eq_left hM,
        max_eq_right hm]
    · have hv : quantize m M s v = m := by
        rw [hq0, min_eq_left hM, max_eq_left (le_of_lt hm)]
      rw [hv]
      unfold quantize
      have hdiv : m / s ≤ v / s := by gcongr
      have hmono : pyRound (m / s) ≤ n := pyRound_mono hdiv
      have hle : (pyRound (m / s) : ℚ) * s ≤ (n : ℚ) * s := by
        have hcast : (pyRound (m / s) : ℚ) ≤ (n : ℚ) := by exact_mod_cast hmono
        exact mul_le_mul_of_nonneg_right hcast (le_of_lt hs)
      have hlt : (pyRound (m / s) : ℚ) * s < m := lt_of_le_of_lt hle hm
      rw [min_eq_left (le_trans (le_of_lt hlt) hmM),
        max_eq_left (le_of_lt hlt)]
  · have hv : quantize m M s v = M := by
      rw [hq0, min_eq_right (le_of_lt hM), max_eq_right hmM]
    rw [hv]
    unfold quantize
    have hdiv : v / s ≤ M / s := by gcongr
    have hmono : n ≤ pyRound (M / s) := pyRound_mono hdiv
    have hle : (n : ℚ) * s ≤ (pyRound (M / s) : ℚ) * s := by
      have hcast : (n : ℚ) ≤ (pyRound (M / s) : ℚ) := by exact_mod_cast hmono
      exact mul_le_mul_of_nonneg_right hcast (le_of_lt hs)
    have hlt : M < (pyRound (M / s) : ℚ) * s := lt_of_lt_of_le hM hle
    rw [min_eq_right (le_of_lt hlt), max_eq_right hmM]

/-- C7 witness: quantization is a fixed point at a concrete off-grid value
inside the range `[0, 10]` with step `4`. -/
theorem c7_quantize_idempotent_witness :
    (0 : ℚ) < 4 ∧ (0 : ℚ) ≤ 9 ∧ (9 : ℚ) ≤ 10 ∧
    quantize 0 10 4 (quantize 0 10 4 9) = quantize 0 10 4 9 :=
  ⟨by norm_num, by norm_num, by norm_num,
    c7_quantize_idempotent 0 10 4 9 (by norm_num) (by norm_num) (by norm_num)⟩

/-- C10: when the key's file is missing, `load_setting` returns the
caller-supplied default unchanged for every default and inversion flag;
when the file exists and the default is boolean, contents parsing as a
nonzero integer — or equal to `"true"` case-insensitively — yield the
truthy result, to which the inversion flag is then applied. -/
theorem c10_load_default_and_truthiness :
    (∀ (d : SettingValue) (inv : Bool), load_setting none d inv = .ok d) ∧
    (∀ (raw : String) (d0 inv : Bool) (n : Int),
        pyParseInt (pyStrip raw) = some n → n ≠ 0 →
        load_setting (some raw) (.b d0) inv = .ok (.b (Bool.xor true inv))) ∧
    (∀ (raw : String) (d0 inv : Bool),
        pyLower (pyStrip raw) = "true" →
        load_setting (some raw) (.b d0) inv = .ok (.b (Bool.xor true inv))) := by
  refine ⟨fun d inv => rfl, ?_, ?_⟩
  · intro raw d0 inv n hparse hn
    have hb : (n != 0) = true := by simpa [bne_iff_ne] using hn
    simp [load_setting, hparse, hb]
  · intro raw d0 inv hlow
    have hparse := parse_none_of_lower_true _ hlow
    simp [load_setting, hparse, hlow]

/-- C10 witness: a numeric file yields `true` with no inversion; an
upper-case `"TRUE"` file yields `true`, inverted to `false`. -/
theorem c10_load_default_and_truthiness_witness :
    load_setting (some " 7 ") (.b false) false = .ok (.b (Bool.xor true false)) ∧
    load_setting (some "TRUE") (.b false) true = .ok (.b (Bool.xor true true)) :=
  ⟨c10_load_default_and_truthiness.2.1 " 7 " false false 7 rfl (by decide),
   c10_load_default_and_truthiness.2.2 "TRUE" false true rfl⟩

theorem on_value_changed_reentrant (r : SliderRow) (v : ℚ) (fid : Nat)
    (h : r.slider_changing = true) :
    r.on_value_changed v fid = { r with position := v } := by
  unfold SliderRow.on_value_changed
  simp [h]

theorem on_value_changed_accepted_spec (r0 : SliderRow) (v : ℚ) (fid : Nat)
    (hc : r0.slider_changing = false) (hdes : r0.state.is_destroyed = false)
    (hdeb : r0.debounce_enabled = true)
    (hacc : ∀ l, r0.last_snapped = some l →
      min_step_value ≤ |quantize r0.min_val r0.max_val r0.step_val v - l|) :
    (r0.on_value_changed v fid).executed = r0.executed ∧
    (r0.on_value_changed v fid).command = r0.command ∧
    (r0.on_value_changed v fid).slider_changing = false ∧
    (r0.on_value_changed v fid).state.is_destroyed = false ∧
    (r0.on_value_changed v fid).debounce_enabled = true ∧
    (r0.on_value_changed v fid).min_val = r0.min_val ∧
    (r0.on_value_changed v fid).max_val = r0.max_val ∧
    (r0.on_value_changed v fid).step_val = r0.step_val ∧
    (r0.on_value_changed v fid).last_snapped =
      some (quantize r0.min_val r0.max_val r0.step_val v) ∧
    (r0.on_value_changed v fid).pending_value =
      some (quantize r0.min_val r0.max_val r0.step_val v) := by
  unfold SliderRow.on_value_changed
  cases hls : r0.last_snapped with
  | none =>
    simp only [hc, hdes, hdeb, hls]
    split_ifs <;> simp_all
  | some l =>
    have hge := hacc l hls
    have hskip :
        ¬(|quantize r0.min_val r0.max_val r0.step_val v - l| <
          min_step_value) := not_lt.mpr hge
    simp only [hc, hdes, hdeb, hls, hskip, decide_eq_true_eq]
    split_ifs <;> simp_all

theorem process_events_spec (rest : List (ℚ × Nat)) :
    ∀ (r : SliderRow) (v : ℚ) (fid : Nat),
      r.slider_changing = false → r.state.is_destroyed = false →
      r.debounce_enabled = true →
      accept_chain r.min_val r.max_val r.step_val r.last_snapped
        (v :: rest.map Prod.fst) →
      (process_events r ((v, fid) :: rest)).executed = r.executed ∧
      (process_events r ((v, fid) :: rest)).command = r.command ∧
      (process_events r ((v, fid) :: rest)).state.is_destroyed = false ∧
      (process_events r ((v, fid) :: rest)).pending_value =
        some (quantize r.min_val r.max_val r.step_val
          ((rest.map Prod.fst).getLastD v)) := by
  induction rest with
  | nil =>
    intro r v fid h1 h2 h3 hch
    have hacc : ∀ l, r.last_snapped = some l →
        min_step_value ≤ |quantize r.min_val r.max_val r.step_val v - l| := by
      intro l hl
      rw [hl] at hch
      simp only [accept_chain, List.map_nil] at hch
      exact hch.1
    obtain ⟨s1, s2, s3, s4, s5, s6, s7, s8, s9, s10⟩ :=
      on_value_changed_accepted_spec r v fid h1 h2 h3 hacc
    refine ⟨s1, s2, s4, ?_⟩
    simpa using s10
  | cons e rest' ih =>
    intro r v fid h1 h2 h3 hch
    have hacc : ∀ l, r.last_snapped = some l →
        min_step_value ≤ |quantize r.min_val r.max_val r.step_val v - l| := by
      intro l hl
      rw [hl] at hch
      simp only [accept_chain, List.map_cons] at hch
      exact hch.1
    obtain ⟨s1, s2, s3, s4, s5, s6, s7, s8, s9, s10⟩ :=
      on_value_changed_accepted_spec r v fid h1 h2 h3 hacc
    have hch1 : accept_chain (r.on_value_changed v fid).min_val
        (r.on_value_changed v fid).max_val
        (r.on_value_changed v fid).step_val
        (r.on_value_changed v fid).last_snapped
        (e.1 :: rest'.map Prod.fst) := by
      rw [s6, s7, s8, s9]
      cases hls : r.last_snapped with
      | none => rw [hls] at hch; simpa [accept_chain] using hch
      | some l => rw [hls] at hch; simpa [accept_chain] using hch.2
    have hfold : process_events r ((v, fid) :: e :: rest') =
        process_events (r.on_value_changed v fid) (e :: rest') := rfl
    obtain ⟨t1, t2, t3, t4⟩ :=
      ih (r.on_value_changed v fid) e.1 e.2 s3 s4 s5 hch1
    refine ⟨?_, ?_, ?_, ?_⟩
    · rw [hfold, t1, s1]
    · rw [hfold, t2, s2]
    · rw [hfold]; exact t3
    · rw [hfold, t4, s6, s7, s8, List.map_cons, List.getLastD_cons]

theorem execute_debounced_action_clears (r : SliderRow)
    (h : r.state.is_destroyed = false) :
    r.execute_debounced_action.pending_value = none ∧
    r.execute_debounced_action.state.is_destroyed = false := by
  unfold SliderRow.execute_debounced_action
  cases hp : r.pending_value with
  | none => simp [h, hp]
  | some v => cases hcm : r.command <;> simp [h, hp, hcm]

theorem execute_debounced_action_noop_of_pending_none (r : SliderRow)
    (hp : r.pending_value = none) (h : r.state.is_destroyed = false) :
    r.execute_debounced_action.executed = r.executed := by
  unfold SliderRow.execute_debounced_action
  simp [h, hp]

/-- C6: for a debounce-enabled slider with an exec command, a rapid burst
of raw value-change events whose quantized values pairwise differ (each
event re-arms the single debounce source, the previous one being
removed) executes nothing during the burst; the one debounce firing that
follows executes the bound command exactly once, with `{value}` replaced
by the last event's quantized value, and a further firing executes
nothing because the pending value was consumed and cleared. -/
theorem c6_debounce_single_execution (min_v max_v step dflt : ℚ)
    (cmd : String) (v : ℚ) (fid : Nat) (rest : List (ℚ × Nat))
    (hch : accept_chain
      (mk_slider_row min_v max_v step true (some cmd) dflt).min_val
      (mk_slider_row min_v max_v step true (some cmd) dflt).max_val
      (mk_slider_row min_v max_v step true (some cmd) dflt).step_val
      none (v :: rest.map Prod.fst)) :
    (process_events (mk_slider_row min_v max_v step true (some cmd) dflt)
        ((v, fid) :: rest)).executed = [] ∧
    ((process_events (mk_slider_row min_v max_v step true (some cmd) dflt)
        ((v, fid) :: rest)).execute_debounced_action).executed =
      [cmd.replace "{value}" (toString (py_int (quantize
        (mk_slider_row min_v max_v step true (some cmd) dflt).min_val
        (mk_slider_row min_v max_v step true (some cmd) dflt).max_val
        (mk_slider_row min_v max_v step true (some cmd) dflt).step_val
        ((rest.map Prod.fst).getLastD v))))] ∧
    (((process_events (mk_slider_row min_v max_v step true (some cmd) dflt)
        ((v, fid) :: rest)).execute_debounced_action).execute_debounced_action).executed =
      ((process_events (mk_slider_row min_v max_v step true (some cmd) dflt)
        ((v, fid) :: rest)).execute_debounced_action).executed := by
  obtain ⟨t1, t2, t3, t4⟩ :=
    process_events_spec rest (mk_slider_row min_v max_v step true (some cmd) dflt)
      v fid rfl rfl rfl hch
  have hcmd : (mk_slider_row min_v max_v step true (some cmd) dflt).command =
      some cmd := rfl
  have hexe : (mk_slider_row min_v max_v step true (some cmd) dflt).executed =
      ([] : List String) := rfl
  rw [hcmd] at t2
  rw [hexe] at t1
  refine ⟨t1, ?_, ?_⟩
  · unfold SliderRow.execute_debounced_action
    simp [t1, t2, t3, t4]
  · obtain ⟨hcl1, hcl2⟩ := execute_debounced_action_clears _ t3
    exact execute_debounced_action_noop_of_pending_none _ hcl1 hcl2

/-- C6 witness: a two-event burst on a `[0, 100]` step-1 slider; the raw
values `3/2` and `5` quantize to `2` and `5`, and the single debounce
firing runs the command with the last quantized value. -/
theorem c6_debounce_single_execution_witness :
    (process_events (mk_slider_row 0 100 1 true (some "set {value}") 0)
        (((3 : ℚ) / 2, 7) :: [((5 : ℚ), 9)])).executed = [] ∧
    ((process_events (mk_slider_row 0 100 1 true (some "set {value}") 0)
        (((3 : ℚ) / 2, 7) :: [((5 : ℚ), 9)])).execute_debounced_action).executed =
      ["set {value}".replace "{value}" (toString (py_int (quantize
        (mk_slider_row 0 100 1 true (some "set {value}") 0).min_val
        (mk_slider_row 0 100 1 true (some "set {value}") 0).max_val
        (mk_slider_row 0 100 1 true (some "set {value}") 0).step_val
        (([((5 : ℚ), 9)].map Prod.fst).getLastD ((3 : ℚ) / 2)))))] ∧
    (((process_events (mk_slider_row 0 100 1 true (some "set {value}") 0)
        (((3 : ℚ) / 2, 7) :: [((5 : ℚ), 9)])).execute_debounced_action).execute_debounced_action).executed =
      ((process_events (mk_slider_row 0 100 1 true (some "set {value}") 0)
        (((3 : ℚ) / 2, 7) :: [((5 : ℚ), 9)])).execute_debounced_action).executed :=
  c6_debounce_single_execution 0 100 1 0 "set {value}" (3 / 2) 7 [(5, 9)]
    (by
      simp only [accept_chain, mk_slider_row, List.map_cons, List.map_nil,
        quantize, pyRound, min_step_value]
      norm_num)

end Dusky
